import Mathlib

/-!
Verification development for the AirCatch virtual display driver
(AirCatchDisplayDriver.h / AirCatchDisplayDriver.cpp / AirCatchUserClient.cpp).

The user-client dispatch layer is embedded from
src/AirCatchDisplayDriver/AirCatchUserClient.cpp.  The Display Service
operations (ConnectDisplay, DisconnectDisplay, GetDisplayInfo,
GetFramebuffer, UpdateFramebuffer) are declared in
AirCatchDisplayDriver.h but have no implementation in the repository
(AirCatchDisplayDriver.cpp only implements Start), so those operations
are modelled from the spec (sections 3, 4.1 and 7 of spec.md).

Result codes: the C code uses kern_return_t framework constants.  The
spec names the rejections abstractly (Success, InvalidSelector,
ArgumentMismatch, NotReady, NotConnected, OutOfBounds, AllocationFailed,
InternalError); the embedding uses one constructor per abstract code.
In the user-client code, kIOReturnBadArgument at the selector-range
guard corresponds to the spec's InvalidSelector, kIOReturnBadArgument
from the generic argument-shape check to ArgumentMismatch, and
kIOReturnError at the null-driver guard in each handler to NotReady.
-/

namespace AirCatch

/-- Result codes of the connection protocol (spec section 6). -/
inductive KernReturn where
  | success
  | invalidSelector
  | argumentMismatch
  | notReady
  | notConnected
  | outOfBounds
  | allocationFailed
  | internalError
  deriving DecidableEq, Repr

/-- Display configuration (struct AirCatchDisplayConfig,
AirCatchDisplayDriver.h lines 27-33).  Fields are uint32_t; values are
modelled as Nat.  pixelFormat 0 is BGRA8888. -/
structure AirCatchDisplayConfig where
  width : Nat
  height : Nat
  refreshRate : Nat
  pixelFormat : Nat
  deriving DecidableEq, Repr

/-- Framebuffer Resource (spec section 3): an owned shared memory region
of a fixed size.  The handle to the region is represented by the record
itself; a connection holding `some fb` holds a valid handle. -/
structure FramebufferResource where
  size : Nat
  deriving DecidableEq, Repr

/-- Display State (spec section 3): current configuration plus
connection status, together with the framebuffer resource the Display
Service owns. -/
structure DisplayState where
  config : Option AirCatchDisplayConfig
  connected : Bool
  framebuffer : Option FramebufferResource
  deriving DecidableEq, Repr

/-- Resource events emitted by Connect, used to state the ordering
"tear down the existing framebuffer before allocating a new one"
(spec section 4.1). -/
inductive FbEvent where
  | released (size : Nat)
  | allocated (size : Nat)
  deriving DecidableEq, Repr

/-- BGRA8888 is four bytes per pixel (spec sections 3 and 8). -/
def bytesPerPixel : Nat := 4

/-- Truncation modulus of a (uint32_t) cast. -/
def u32Mod : Nat := 2 ^ 32

/-- First value that does not fit in a uint64_t. -/
def u64Bound : Nat := 2 ^ 64

/-- Display State at service start: connected = false, no configuration,
no framebuffer (spec section 3). -/
def initDisplayState : DisplayState :=
  { config := none, connected := false, framebuffer := none }

/-- State invariants of the Display Service (spec section 3):
`connected == config.isSome()` and the Framebuffer Resource exists iff
connected. -/
def displayInvariant (st : DisplayState) : Prop :=
  st.connected = st.config.isSome ∧ st.framebuffer.isSome = st.connected

instance (st : DisplayState) : Decidable (displayInvariant st) := by
  unfold displayInvariant; infer_instance

/-- Modelled from the spec: AirCatchDisplayDriver::ConnectDisplay is
declared in AirCatchDisplayDriver.h line 45 but not implemented under
src/.  Spec section 4.1: constrain inputs to the valid ranges of
section 3 (width, height, refreshRate all positive); if already
connected, tear down the existing Framebuffer Resource before
allocating the new one; on allocation failure the state remains
unconnected with the previous framebuffer released; on success set
connected = true, store the new DisplayConfig, and own a fresh
zero-initialized buffer of size width * height * bytesPerPixel.
`alloc n` says whether allocating n bytes succeeds; the returned trace
records releases and allocations in order.  The spec names no specific
code for an out-of-range input; kIOReturnBadArgument, rendered
argumentMismatch, is used. -/
def connectDisplay (alloc : Nat → Bool) (st : DisplayState)
    (width height refreshRate : Nat) :
    KernReturn × DisplayState × List FbEvent :=
  if width = 0 ∨ height = 0 ∨ refreshRate = 0 then
    (.argumentMismatch, st, [])
  else
    let releaseEvents : List FbEvent :=
      match st.framebuffer with
      | some fb => [.released fb.size]
      | none => []
    let size := width * height * bytesPerPixel
    if alloc size then
      (.success,
       { config := some ⟨width, height, refreshRate, 0⟩,
         connected := true,
         framebuffer := some ⟨size⟩ },
       releaseEvents ++ [.allocated size])
    else
      (.allocationFailed,
       { config := none, connected := false, framebuffer := none },
       releaseEvents)

/-- Allocation oracle for the success path: every allocation succeeds. -/
def allocOk : Nat → Bool := fun _ => true

/-- Modelled from the spec: AirCatchDisplayDriver::DisconnectDisplay is
declared in AirCatchDisplayDriver.h line 46 but not implemented under
src/.  Spec section 4.1: release the Framebuffer Resource (a no-op, not
an error, if already disconnected) and set connected = false,
config = None. -/
def disconnectDisplay (st : DisplayState) : KernReturn × DisplayState :=
  (.success, { config := none, connected := false, framebuffer := none })

/-- Modelled from the spec: AirCatchDisplayDriver::GetDisplayInfo is
declared in AirCatchDisplayDriver.h lines 47-48 but not implemented
under src/.  Spec section 4.1: a pure read returning
(width, height, refreshRate, connected); when not connected the three
dimensions are defined as zero. -/
def getDisplayInfo (st : DisplayState) : KernReturn × Nat × Nat × Nat × Bool :=
  match st.config with
  | some c => (.success, c.width, c.height, c.refreshRate, st.connected)
  | none => (.success, 0, 0, 0, st.connected)

/-- Modelled from the spec: AirCatchDisplayDriver::GetFramebuffer is
declared in AirCatchDisplayDriver.h line 51 but not implemented under
src/.  Spec section 4.1: fails with NotConnected if no display is
connected; otherwise returns a reference handle to the resource and the
resource's fixed size.  A connected state with no resource would break
the section 3 invariant; that unreachable branch surfaces
InternalError (spec section 7, unexpected lower-layer failure). -/
def getFramebuffer (st : DisplayState) :
    KernReturn × Option FramebufferResource × Nat :=
  if st.connected = false then (.notConnected, none, 0)
  else
    match st.framebuffer with
    | some fb => (.success, some fb, fb.size)
    | none => (.internalError, none, 0)

/-- Modelled from the spec: AirCatchDisplayDriver::UpdateFramebuffer is
declared in AirCatchDisplayDriver.h line 52 but not implemented under
src/.  Spec section 4.1: fails with NotConnected if disconnected; fails
with OutOfBounds if offset + length > framebuffer.size or the uint64_t
addition would overflow; otherwise success (a notification only — no
state change, and a zero-length range is a no-op success).  offset and
length are uint64_t values; Nat addition is exact, so the overflow
clause is the explicit comparison with 2^64. -/
def updateFramebuffer (st : DisplayState) (offset length : Nat) : KernReturn :=
  if st.connected = false then .notConnected
  else
    match st.framebuffer with
    | some fb =>
        if fb.size < offset + length ∨ u64Bound ≤ offset + length then
          .outOfBounds
        else .success
    | none => .internalError

/-- IOUserClientMethodArguments as used by the handlers: positional
scalar input/output arrays of uint64_t values, the structured
input/output byte sizes the caller declared, and the structured-output
slot through which GetFramebuffer returns the buffer handle
(AirCatchUserClient.cpp lines 175-259). -/
structure MethodArguments where
  scalarInput : List Nat
  structureInputSize : Nat
  scalarOutput : List Nat
  structureOutputSize : Nat
  structureOutput : Option FramebufferResource
  deriving DecidableEq, Repr

/-- Connection state, the AirCatchUserClient_IVars of
AirCatchUserClient.cpp lines 18-21: the back-reference to the driver
(carrying the Display Service state it owns) and the open flag. -/
structure ConnState where
  driver : Option DisplayState
  isOpen : Bool
  deriving DecidableEq, Repr

/-- ExternalMethodConnectDisplay (AirCatchUserClient.cpp lines 175-189):
reject when the driver reference is absent (kIOReturnError, the spec's
NotReady); otherwise read scalar inputs 0,1,2 with a (uint32_t) cast and
call ConnectDisplay.  Allocation is modelled as succeeding. -/
def externalMethodConnectDisplay (conn : ConnState) (a : MethodArguments) :
    KernReturn × ConnState × MethodArguments :=
  match conn.driver with
  | none => (.notReady, conn, a)
  | some drv =>
      let width := a.scalarInput.getD 0 0 % u32Mod
      let height := a.scalarInput.getD 1 0 % u32Mod
      let refreshRate := a.scalarInput.getD 2 0 % u32Mod
      let res := connectDisplay allocOk drv width height refreshRate
      (res.1, { conn with driver := some res.2.1 }, a)

/-- ExternalMethodDisconnectDisplay (AirCatchUserClient.cpp lines
191-201): reject when the driver reference is absent; otherwise call
DisconnectDisplay. -/
def externalMethodDisconnectDisplay (conn : ConnState) (a : MethodArguments) :
    KernReturn × ConnState × MethodArguments :=
  match conn.driver with
  | none => (.notReady, conn, a)
  | some drv =>
      let res := disconnectDisplay drv
      (res.1, { conn with driver := some res.2 }, a)

/-- ExternalMethodGetDisplayInfo (AirCatchUserClient.cpp lines 203-224):
reject when the driver reference is absent; call GetDisplayInfo; on a
non-success result return it without writing any output; on success
write width, height, refreshRate, and connected-as-0/1 to scalar output
positions 0..3. -/
def externalMethodGetDisplayInfo (conn : ConnState) (a : MethodArguments) :
    KernReturn × ConnState × MethodArguments :=
  match conn.driver with
  | none => (.notReady, conn, a)
  | some drv =>
      let res := getDisplayInfo drv
      if res.1 ≠ .success then (res.1, conn, a)
      else
        (.success, conn,
         { a with scalarOutput :=
            ((((a.scalarOutput.set 0 res.2.1).set 1 res.2.2.1).set 2
              res.2.2.2.1).set 3 (if res.2.2.2.2 then 1 else 0)) })

/-- ExternalMethodGetFramebuffer (AirCatchUserClient.cpp lines 226-246):
reject when the driver reference is absent; call GetFramebuffer; on a
non-success result return it without writing any output; on success
place the memory-descriptor handle in the structured-output slot and the
size at scalar output position 0. -/
def externalMethodGetFramebuffer (conn : ConnState) (a : MethodArguments) :
    KernReturn × ConnState × MethodArguments :=
  match conn.driver with
  | none => (.notReady, conn, a)
  | some drv =>
      let res := getFramebuffer drv
      if res.1 ≠ .success then (res.1, conn, a)
      else
        (.success, conn,
         { a with structureOutput := res.2.1,
                  scalarOutput := a.scalarOutput.set 0 res.2.2 })

/-- ExternalMethodUpdateFramebuffer (AirCatchUserClient.cpp lines
248-259): reject when the driver reference is absent; read scalar
inputs 0,1 as uint64_t offset and length and call UpdateFramebuffer. -/
def externalMethodUpdateFramebuffer (conn : ConnState) (a : MethodArguments) :
    KernReturn × ConnState × MethodArguments :=
  match conn.driver with
  | none => (.notReady, conn, a)
  | some drv =>
      let offset := a.scalarInput.getD 0 0
      let length := a.scalarInput.getD 1 0
      (updateFramebuffer drv offset length, conn, a)

/-- IOUserClientMethodDispatch: a dispatch-table entry, carrying the
handler and the declared argument schema (AirCatchUserClient.cpp lines
36-82). -/
structure IOUserClientMethodDispatch where
  function : ConnState → MethodArguments → KernReturn × ConnState × MethodArguments
  checkCompletionExists : Bool
  checkScalarInputCount : Nat
  checkStructureInputSize : Nat
  checkScalarOutputCount : Nat
  checkStructureOutputSize : Nat

/-- sMethods entry 0, kAirCatchDisplayDriverMethodConnectDisplay
(AirCatchUserClient.cpp lines 38-45): 3 scalar inputs (width, height,
refreshRate), no outputs. -/
def connectDisplayEntry : IOUserClientMethodDispatch :=
  { function := externalMethodConnectDisplay,
    checkCompletionExists := false,
    checkScalarInputCount := 3,
    checkStructureInputSize := 0,
    checkScalarOutputCount := 0,
    checkStructureOutputSize := 0 }

/-- sMethods entry 1, kAirCatchDisplayDriverMethodDisconnectDisplay
(AirCatchUserClient.cpp lines 47-54): no inputs, no outputs. -/
def disconnectDisplayEntry : IOUserClientMethodDispatch :=
  { function := externalMethodDisconnectDisplay,
    checkCompletionExists := false,
    checkScalarInputCount := 0,
    checkStructureInputSize := 0,
    checkScalarOutputCount := 0,
    checkStructureOutputSize := 0 }

/-- sMethods entry 2, kAirCatchDisplayDriverMethodGetDisplayInfo
(AirCatchUserClient.cpp lines 56-63): no inputs, 4 scalar outputs
(width, height, refreshRate, isConnected). -/
def getDisplayInfoEntry : IOUserClientMethodDispatch :=
  { function := externalMethodGetDisplayInfo,
    checkCompletionExists := false,
    checkScalarInputCount := 0,
    checkStructureInputSize := 0,
    checkScalarOutputCount := 4,
    checkStructureOutputSize := 0 }

/-- sMethods entry 3, kAirCatchDisplayDriverMethodGetFramebuffer
(AirCatchUserClient.cpp lines 64-72): no inputs, 1 scalar output (the
framebuffer size); the declared structured-output byte size is 0, the
buffer handle travels through the object-valued structured-output
slot. -/
def getFramebufferEntry : IOUserClientMethodDispatch :=
  { function := externalMethodGetFramebuffer,
    checkCompletionExists := false,
    checkScalarInputCount := 0,
    checkStructureInputSize := 0,
    checkScalarOutputCount := 1,
    checkStructureOutputSize := 0 }

/-- sMethods entry 4, kAirCatchDisplayDriverMethodUpdateFramebuffer
(AirCatchUserClient.cpp lines 73-81): 2 scalar inputs (offset, length),
no outputs. -/
def updateFramebufferEntry : IOUserClientMethodDispatch :=
  { function := externalMethodUpdateFramebuffer,
    checkCompletionExists := false,
    checkScalarInputCount := 2,
    checkStructureInputSize := 0,
    checkScalarOutputCount := 0,
    checkStructureOutputSize := 0 }

/-- The dispatch table sMethods (AirCatchUserClient.cpp lines 36-82),
indexed by selector. -/
def sMethods : List IOUserClientMethodDispatch :=
  [connectDisplayEntry, disconnectDisplayEntry, getDisplayInfoEntry,
   getFramebufferEntry, updateFramebufferEntry]

/-- kAirCatchDisplayDriverMethodCount
(AirCatchDisplayDriver.h line 23). -/
def kAirCatchDisplayDriverMethodCount : Nat := 5

/-- Modelled from the spec: the generic argument-shape check of the
framework's IOUserClient::ExternalMethod, which the user client invokes
with the dispatch-table entry (AirCatchUserClient.cpp line 170), is
framework code not under src/.  Spec section 4.2 step 2: the actual
scalar input/output counts and structured sizes must exactly equal the
table's declared schema. -/
def checkArguments (m : IOUserClientMethodDispatch) (a : MethodArguments) : Bool :=
  a.scalarInput.length = m.checkScalarInputCount &&
  a.structureInputSize = m.checkStructureInputSize &&
  a.scalarOutput.length = m.checkScalarOutputCount &&
  a.structureOutputSize = m.checkStructureOutputSize

/-- Modelled from the spec: the framework dispatch invoked at
AirCatchUserClient.cpp line 170 runs the generic shape check before the
handler (spec section 4.2 steps 2 and 4) and rejects a mismatch with
kIOReturnBadArgument, the spec's ArgumentMismatch. -/
def dispatchExternalMethod (m : IOUserClientMethodDispatch) (conn : ConnState)
    (a : MethodArguments) : KernReturn × ConnState × MethodArguments :=
  if checkArguments m a then m.function conn a
  else (.argumentMismatch, conn, a)

/-- AirCatchUserClient::ExternalMethod (AirCatchUserClient.cpp lines
163-171): a selector at or beyond kAirCatchDisplayDriverMethodCount is
rejected with kIOReturnBadArgument (the spec's InvalidSelector) before
anything else; otherwise the call is dispatched through sMethods.  The
out-of-range branch of the table lookup is unreachable for selectors
below the count. -/
def externalMethod (selector : Nat) (a : MethodArguments) (conn : ConnState) :
    KernReturn × ConnState × MethodArguments :=
  if kAirCatchDisplayDriverMethodCount ≤ selector then
    (.invalidSelector, conn, a)
  else
    match sMethods.get? selector with
    | some m => dispatchExternalMethod m conn a
    | none => (.invalidSelector, conn, a)

/-- Shape check of a selector's table entry, applied to concrete
arguments; true outside the table (no entry to mismatch). -/
def argumentsMatch (selector : Nat) (a : MethodArguments) : Bool :=
  match sMethods.get? selector with
  | some m => checkArguments m a
  | none => true

/-- AirCatchUserClient::ClientClose (AirCatchUserClient.cpp lines
147-159): sets isOpen = false and asks the host to terminate the user
client; the driver reference is left untouched (only Stop clears it). -/
def clientClose (conn : ConnState) : ConnState :=
  { conn with isOpen := false }

/-- AirCatchUserClient::Stop (AirCatchUserClient.cpp lines 138-145), the
host-driven teardown: sets isOpen = false and clears the driver
reference. -/
def stopClient (conn : ConnState) : ConnState :=
  { driver := none, isOpen := false }

/-- Arguments with no scalars and no structured bytes, the shape of
selector 1 (DisconnectDisplay). -/
def emptyArgs : MethodArguments :=
  { scalarInput := [], structureInputSize := 0, scalarOutput := [],
    structureOutputSize := 0, structureOutput := none }

/-- Arguments shaped for selector 2 (GetDisplayInfo): 4 scalar
outputs. -/
def infoArgs : MethodArguments :=
  { scalarInput := [], structureInputSize := 0, scalarOutput := [0, 0, 0, 0],
    structureOutputSize := 0, structureOutput := none }

/-- Arguments shaped for selector 3 (GetFramebuffer): 1 scalar
output. -/
def fbArgs : MethodArguments :=
  { scalarInput := [], structureInputSize := 0, scalarOutput := [0],
    structureOutputSize := 0, structureOutput := none }

/-- Arguments with only 2 scalar inputs, one short of selector 0's
declared 3. -/
def shortArgs : MethodArguments :=
  { scalarInput := [800, 600], structureInputSize := 0, scalarOutput := [],
    structureOutputSize := 0, structureOutput := none }

/-- A connection in the Open state backed by a freshly started (still
disconnected) Display Service. -/
def openConn : ConnState :=
  { driver := some initDisplayState, isOpen := true }

/-- Display Service state after Connect(800, 600, 60): 800 * 600 * 4 =
1920000 framebuffer bytes. -/
def connectedState : DisplayState :=
  { config := some ⟨800, 600, 60, 0⟩, connected := true,
    framebuffer := some ⟨1920000⟩ }

lemma externalMethod_sel0 (a : MethodArguments) (conn : ConnState) :
    externalMethod 0 a conn = dispatchExternalMethod connectDisplayEntry conn a := rfl

lemma externalMethod_sel1 (a : MethodArguments) (conn : ConnState) :
    externalMethod 1 a conn = dispatchExternalMethod disconnectDisplayEntry conn a := rfl

lemma externalMethod_sel2 (a : MethodArguments) (conn : ConnState) :
    externalMethod 2 a conn = dispatchExternalMethod getDisplayInfoEntry conn a := rfl

lemma externalMethod_sel3 (a : MethodArguments) (conn : ConnState) :
    externalMethod 3 a conn = dispatchExternalMethod getFramebufferEntry conn a := rfl

lemma externalMethod_sel4 (a : MethodArguments) (conn : ConnState) :
    externalMethod 4 a conn = dispatchExternalMethod updateFramebufferEntry conn a := rfl

lemma dispatch_entry_run (m : IOUserClientMethodDispatch) (conn : ConnState)
    (a : MethodArguments) (hm : checkArguments m a = true) :
    dispatchExternalMethod m conn a = m.function conn a := by
  unfold dispatchExternalMethod
  rw [hm]
  simp

lemma dispatch_entry_mismatch (m : IOUserClientMethodDispatch) (conn : ConnState)
    (a : MethodArguments) (hm : checkArguments m a = false) :
    dispatchExternalMethod m conn a = (.argumentMismatch, conn, a) := by
  unfold dispatchExternalMethod
  rw [hm]
  simp

lemma handler0_noService (conn : ConnState) (a : MethodArguments)
    (hd : conn.driver = none) :
    externalMethodConnectDisplay conn a = (.notReady, conn, a) := by
  unfold externalMethodConnectDisplay
  rw [hd]

lemma handler1_noService (conn : ConnState) (a : MethodArguments)
    (hd : conn.driver = none) :
    externalMethodDisconnectDisplay conn a = (.notReady, conn, a) := by
  unfold externalMethodDisconnectDisplay
  rw [hd]

lemma handler2_noService (conn : ConnState) (a : MethodArguments)
    (hd : conn.driver = none) :
    externalMethodGetDisplayInfo conn a = (.notReady, conn, a) := by
  unfold externalMethodGetDisplayInfo
  rw [hd]

lemma handler3_noService (conn : ConnState) (a : MethodArguments)
    (hd : conn.driver = none) :
    externalMethodGetFramebuffer conn a = (.notReady, conn, a) := by
  unfold externalMethodGetFramebuffer
  rw [hd]

lemma handler4_noService (conn : ConnState) (a : MethodArguments)
    (hd : conn.driver = none) :
    externalMethodUpdateFramebuffer conn a = (.notReady, conn, a) := by
  unfold externalMethodUpdateFramebuffer
  rw [hd]

/-- Spec section 4.2 step 3: a dispatched call (valid selector, matching
shape) on a connection whose service reference is cleared fails with
NotReady, with no state change and no output written. -/
lemma dispatch_noService (s : Nat) (conn : ConnState) (a : MethodArguments)
    (hs : s < kAirCatchDisplayDriverMethodCount) (hd : conn.driver = none)
    (hm : argumentsMatch s a = true) :
    externalMethod s a conn = (.notReady, conn, a) := by
  have hs5 : s < 5 := hs
  interval_cases s
  · rw [externalMethod_sel0, dispatch_entry_run connectDisplayEntry conn a hm]
    exact handler0_noService conn a hd
  · rw [externalMethod_sel1, dispatch_entry_run disconnectDisplayEntry conn a hm]
    exact handler1_noService conn a hd
  · rw [externalMethod_sel2, dispatch_entry_run getDisplayInfoEntry conn a hm]
    exact handler2_noService conn a hd
  · rw [externalMethod_sel3, dispatch_entry_run getFramebufferEntry conn a hm]
    exact handler3_noService conn a hd
  · rw [externalMethod_sel4, dispatch_entry_run updateFramebufferEntry conn a hm]
    exact handler4_noService conn a hd

lemma getDisplayInfo_fst (st : DisplayState) : (getDisplayInfo st).1 = .success := by
  unfold getDisplayInfo
  cases st.config <;> rfl

/-- C1: for every inbound call with a selector in the table, the
dispatcher rejects it with ArgumentMismatch — leaving connection state
and arguments untouched, so before the handler runs — whenever the
actual scalar input count, scalar output count, or structured
input/output sizes differ from the declared schema; the declared schema
(scalar-in, structured-in, scalar-out, structured-out) is exactly
(3,0,0,0), (0,0,0,0), (0,0,4,0), (0,0,1,0), (2,0,0,0) for selectors
0..4; and selector 3 additionally delivers a buffer handle through the
structured-output slot on success. -/
theorem C1_argument_schema :
    (∀ (s : Nat) (conn : ConnState) (a : MethodArguments),
        s < kAirCatchDisplayDriverMethodCount → argumentsMatch s a = false →
        externalMethod s a conn = (.argumentMismatch, conn, a)) ∧
    sMethods.map (fun m => (m.checkScalarInputCount, m.checkStructureInputSize,
        m.checkScalarOutputCount, m.checkStructureOutputSize)) =
      [(3, 0, 0, 0), (0, 0, 0, 0), (0, 0, 4, 0), (0, 0, 1, 0), (2, 0, 0, 0)] ∧
    (∀ (conn : ConnState) (drv : DisplayState) (fb : FramebufferResource)
        (a : MethodArguments),
        conn.driver = some drv → drv.connected = true →
        drv.framebuffer = some fb → argumentsMatch 3 a = true →
        externalMethod 3 a conn =
          (.success, conn,
           { a with structureOutput := some fb,
                    scalarOutput := a.scalarOutput.set 0 fb.size })) := by
  refine ⟨?_, rfl, ?_⟩
  · intro s conn a hs hm
    have hs5 : s < 5 := hs
    interval_cases s
    · rw [externalMethod_sel0]
      exact dispatch_entry_mismatch connectDisplayEntry conn a hm
    · rw [externalMethod_sel1]
      exact dispatch_entry_mismatch disconnectDisplayEntry conn a hm
    · rw [externalMethod_sel2]
      exact dispatch_entry_mismatch getDisplayInfoEntry conn a hm
    · rw [externalMethod_sel3]
      exact dispatch_entry_mismatch getFramebufferEntry conn a hm
    · rw [externalMethod_sel4]
      exact dispatch_entry_mismatch updateFramebufferEntry conn a hm
  · intro conn drv fb a hdrv hc hfb hm
    rw [externalMethod_sel3, dispatch_entry_run getFramebufferEntry conn a hm]
    show externalMethodGetFramebuffer conn a = _
    unfold externalMethodGetFramebuffer
    rw [hdrv]
    simp [getFramebuffer, hc, hfb]

/-- Witness for C1: ConnectDisplay with only 2 scalar inputs is rejected
with ArgumentMismatch and nothing is dispatched; GetFramebuffer on a
connected service yields the handle and size in the output slots. -/
theorem C1_argument_schema_witness :
    externalMethod 0 shortArgs openConn =
      (.argumentMismatch, openConn, shortArgs) ∧
    externalMethod 3 fbArgs { driver := some connectedState, isOpen := true } =
      (.success, { driver := some connectedState, isOpen := true },
       { fbArgs with structureOutput := some ⟨1920000⟩,
                     scalarOutput := fbArgs.scalarOutput.set 0 1920000 }) :=
  ⟨C1_argument_schema.1 0 openConn shortArgs (by decide) (by decide),
   C1_argument_schema.2.2 { driver := some connectedState, isOpen := true }
     connectedState ⟨1920000⟩ fbArgs rfl rfl rfl (by decide)⟩

/-- C2: every selector at or beyond the enumeration bound of 5 is
rejected with InvalidSelector, for every connection state and argument
shape, with connection state and arguments untouched — so before any
handler or Display Service operation is invoked. -/
theorem C2_invalid_selector (s : Nat) (conn : ConnState) (a : MethodArguments)
    (hs : kAirCatchDisplayDriverMethodCount ≤ s) :
    externalMethod s a conn = (.invalidSelector, conn, a) := by
  unfold externalMethod
  rw [if_pos hs]

/-- Witness for C2: selector 5 fails with InvalidSelector on an open,
service-backed connection. -/
theorem C2_invalid_selector_witness :
    externalMethod 5 emptyArgs openConn = (.invalidSelector, openConn, emptyArgs) :=
  C2_invalid_selector 5 openConn emptyArgs (by decide)

/-- C3: every dispatched call (valid selector, matching argument shape)
on a connection whose service reference is absent fails with NotReady,
leaving connection state and arguments untouched, so no Display Service
operation is invoked. -/
theorem C3_no_service_not_ready (s : Nat) (conn : ConnState) (a : MethodArguments)
    (hs : s < kAirCatchDisplayDriverMethodCount) (hd : conn.driver = none)
    (hm : argumentsMatch s a = true) :
    externalMethod s a conn = (.notReady, conn, a) :=
  dispatch_noService s conn a hs hd hm

/-- Witness for C3: DisconnectDisplay on a connection with no service
reference fails with NotReady. -/
theorem C3_no_service_not_ready_witness :
    externalMethod 1 emptyArgs { driver := none, isOpen := true } =
      (.notReady, { driver := none, isOpen := true }, emptyArgs) :=
  C3_no_service_not_ready 1 { driver := none, isOpen := true } emptyArgs
    (by decide) rfl (by decide)

/-- Counterexample to C4 as stated: after an explicit close request
(ClientClose) on an Open connection backed by a service, the connection
is no longer Open, yet its service reference is not cleared, and a
dispatched DisconnectDisplay call still runs against the Display Service
and returns Success rather than NotReady. -/
theorem C4_counterexample :
    (clientClose openConn).isOpen = false ∧
    (clientClose openConn).driver = some initDisplayState ∧
    externalMethod 1 emptyArgs (clientClose openConn) =
      (.success, clientClose openConn, emptyArgs) ∧
    (externalMethod 1 emptyArgs (clientClose openConn)).1 ≠ .notReady := by
  decide

/-- C4 (amended): host-driven teardown (Stop) transitions the connection
to Closed and clears its service reference; an explicit close request
(ClientClose) transitions it to Closed but leaves the service reference
in place until teardown; a dispatched call fails with NotReady exactly
when the service reference is absent — the open flag is not consulted —
so a connection whose service reference is cleared never dispatches a
call to the Display Service. -/
theorem C4_close_teardown_amended :
    (∀ conn : ConnState, stopClient conn = { driver := none, isOpen := false }) ∧
    (∀ conn : ConnState,
        (clientClose conn).isOpen = false ∧ (clientClose conn).driver = conn.driver) ∧
    (∀ (s : Nat) (conn : ConnState) (a : MethodArguments),
        s < kAirCatchDisplayDriverMethodCount → conn.driver = none →
        argumentsMatch s a = true →
        externalMethod s a conn = (.notReady, conn, a)) :=
  ⟨fun _ => rfl, fun _ => ⟨rfl, rfl⟩,
   fun s conn a hs hd hm => dispatch_noService s conn a hs hd hm⟩

/-- Witness for the amended C4: after Stop, a GetDisplayInfo dispatch
fails with NotReady. -/
theorem C4_close_teardown_amended_witness :
    externalMethod 2 infoArgs (stopClient openConn) =
      (.notReady, stopClient openConn, infoArgs) :=
  C4_close_teardown_amended.2.2 2 (stopClient openConn) infoArgs
    (by decide) rfl (by decide)

/-- C5: for all positive width, height, refreshRate, Connect succeeds
(allocation succeeding) from any prior state, and a subsequent
GetDisplayInfo returns exactly those three values with
connected = true. -/
theorem C5_connect_then_info (st : DisplayState) (w h r : Nat)
    (hw : 0 < w) (hh : 0 < h) (hr : 0 < r) :
    (connectDisplay allocOk st w h r).1 = .success ∧
    getDisplayInfo (connectDisplay allocOk st w h r).2.1 =
      (.success, w, h, r, true) := by
  simp [connectDisplay, allocOk, getDisplayInfo, hw.ne', hh.ne', hr.ne']

/-- Witness for C5: Connect(800, 600, 60) from the start state succeeds
and GetDisplayInfo reports (800, 600, 60, true). -/
theorem C5_connect_then_info_witness :
    (connectDisplay allocOk initDisplayState 800 600 60).1 = .success ∧
    getDisplayInfo (connectDisplay allocOk initDisplayState 800 600 60).2.1 =
      (.success, 800, 600, 60, true) :=
  C5_connect_then_info initDisplayState 800 600 60 (by decide) (by decide) (by decide)

/-- C6: GetFramebuffer fails with NotConnected whenever no display is
connected — in particular at the start state (before any Connect) and
after any Disconnect; after Connect(800, 600, 60) it succeeds, returning
size 800 * 600 * 4 = 1920000 together with a valid buffer handle. -/
theorem C6_get_framebuffer :
    (∀ st : DisplayState, st.connected = false →
        getFramebuffer st = (.notConnected, none, 0)) ∧
    getFramebuffer initDisplayState = (.notConnected, none, 0) ∧
    (∀ st : DisplayState,
        getFramebuffer (disconnectDisplay st).2 = (.notConnected, none, 0)) ∧
    ((connectDisplay allocOk initDisplayState 800 600 60).1 = .success ∧
     getFramebuffer (connectDisplay allocOk initDisplayState 800 600 60).2.1 =
       (.success, some ⟨800 * 600 * 4⟩, 800 * 600 * 4)) := by
  refine ⟨?_, by decide, fun st => rfl, by decide⟩
  intro st h
  simp [getFramebuffer, h]

/-- Witness for C6: the not-connected clause applied at the start
state. -/
theorem C6_get_framebuffer_witness :
    getFramebuffer initDisplayState = (.notConnected, none, 0) :=
  C6_get_framebuffer.1 initDisplayState rfl

/-- C7: UpdateFramebuffer fails with NotConnected whenever no display is
connected; on a connected state holding a framebuffer it fails with
OutOfBounds exactly when offset + length exceeds the framebuffer size or
the uint64_t addition overflows; and UpdateFramebuffer(0, 0) always
succeeds when connected. -/
theorem C7_update_bounds :
    (∀ (st : DisplayState) (offset length : Nat), st.connected = false →
        updateFramebuffer st offset length = .notConnected) ∧
    (∀ (st : DisplayState) (fb : FramebufferResource) (offset length : Nat),
        st.connected = true → st.framebuffer = some fb →
        (updateFramebuffer st offset length = .outOfBounds ↔
          fb.size < offset + length ∨ u64Bound ≤ offset + length)) ∧
    (∀ (st : DisplayState) (fb : FramebufferResource),
        st.connected = true → st.framebuffer = some fb →
        updateFramebuffer st 0 0 = .success) := by
  refine ⟨?_, ?_, ?_⟩
  · intro st offset length h
    simp [updateFramebuffer, h]
  · intro st fb offset length hc hfb
    simp only [updateFramebuffer, hc, hfb]
    split_ifs with h <;> simp_all
  · intro st fb hc hfb
    simp [updateFramebuffer, hc, hfb, u64Bound]

/-- Witness for C7: UpdateFramebuffer(0, 0) succeeds on the connected
800x600 state, a full-buffer update succeeds, and a one-past-the-end
update is OutOfBounds. -/
theorem C7_update_bounds_witness :
    updateFramebuffer initDisplayState 0 4 = .notConnected ∧
    updateFramebuffer connectedState 0 0 = .success ∧
    (updateFramebuffer connectedState 1920000 1 = .outOfBounds ↔
      (1920000 : Nat) < 1920000 + 1 ∨ u64Bound ≤ 1920000 + 1) :=
  ⟨C7_update_bounds.1 initDisplayState 0 4 rfl,
   C7_update_bounds.2.2 connectedState ⟨1920000⟩ rfl rfl,
   C7_update_bounds.2.1 connectedState ⟨1920000⟩ 1920000 1 rfl rfl⟩

/-- C8: Disconnect on an already-disconnected service returns Success (a
no-op, not an error), and a subsequent GetDisplayInfo reports
connected = false with width, height and refreshRate all zero. -/
theorem C8_disconnect_idempotent (st : DisplayState) (h : st.connected = false) :
    (disconnectDisplay st).1 = .success ∧
    getDisplayInfo (disconnectDisplay st).2 = (.success, 0, 0, 0, false) :=
  ⟨rfl, rfl⟩

/-- Witness for C8: Disconnect at the (disconnected) start state. -/
theorem C8_disconnect_idempotent_witness :
    (disconnectDisplay initDisplayState).1 = .success ∧
    getDisplayInfo (disconnectDisplay initDisplayState).2 =
      (.success, 0, 0, 0, false) :=
  C8_disconnect_idempotent initDisplayState rfl

/-- C9: the state invariants — connected equals config.isSome, and the
framebuffer exists iff connected — hold at the start state and are
preserved by Connect (for every allocation outcome) and by Disconnect
(the read-only operations return no state); Connect on a state holding a
framebuffer releases it before any allocation event; and when allocation
fails on validated inputs the resulting state is unconnected with no
framebuffer. -/
theorem C9_state_invariants :
    displayInvariant initDisplayState ∧
    (∀ (alloc : Nat → Bool) (st : DisplayState) (w h r : Nat),
        displayInvariant st →
        displayInvariant (connectDisplay alloc st w h r).2.1) ∧
    (∀ st : DisplayState, displayInvariant (disconnectDisplay st).2) ∧
    (∀ (alloc : Nat → Bool) (st : DisplayState) (w h r : Nat)
        (fb : FramebufferResource),
        st.framebuffer = some fb → w ≠ 0 → h ≠ 0 → r ≠ 0 →
        (connectDisplay alloc st w h r).2.2 =
          .released fb.size ::
            (if alloc (w * h * bytesPerPixel) then
              [.allocated (w * h * bytesPerPixel)] else [])) ∧
    (∀ (alloc : Nat → Bool) (st : DisplayState) (w h r : Nat),
        w ≠ 0 → h ≠ 0 → r ≠ 0 → alloc (w * h * bytesPerPixel) = false →
        (connectDisplay alloc st w h r).2.1 =
          { config := none, connected := false, framebuffer := none }) := by
  refine ⟨by decide, ?_, fun st => by simp [disconnectDisplay, displayInvariant], ?_, ?_⟩
  · intro alloc st w h r hinv
    by_cases hg : w = 0 ∨ h = 0 ∨ r = 0
    · simpa [connectDisplay, hg] using hinv
    · by_cases ha : alloc (w * h * bytesPerPixel) = true
      · simp [connectDisplay, hg, ha, displayInvariant]
      · simp only [Bool.not_eq_true] at ha
        simp [connectDisplay, hg, ha, displayInvariant]
  · intro alloc st w h r fb hfb hw hh hr
    simp only [connectDisplay, hw, hh, hr, hfb, false_or, if_false]
    by_cases ha : alloc (w * h * bytesPerPixel) = true
    · simp [ha]
    · simp only [Bool.not_eq_true] at ha
      simp [ha]
  · intro alloc st w h r hw hh hr ha
    simp [connectDisplay, hw, hh, hr, ha]

/-- Witness for C9: the invariant is preserved by a successful
Connect(800, 600, 60) from the start state, and a failing allocation
from the connected state releases the old buffer and leaves the service
unconnected with no framebuffer. -/
theorem C9_state_invariants_witness :
    displayInvariant (connectDisplay allocOk initDisplayState 800 600 60).2.1 ∧
    (connectDisplay (fun _ => false) connectedState 1920 1080 60).2.2 =
      [.released 1920000] ∧
    (connectDisplay (fun _ => false) connectedState 1920 1080 60).2.1 =
      { config := none, connected := false, framebuffer := none } :=
  ⟨C9_state_invariants.2.1 allocOk initDisplayState 800 600 60 (by decide),
   C9_state_invariants.2.2.2.1 (fun _ => false) connectedState 1920 1080 60
     ⟨1920000⟩ rfl (by decide) (by decide) (by decide),
   C9_state_invariants.2.2.2.2 (fun _ => false) connectedState 1920 1080 60
     (by decide) (by decide) (by decide) rfl⟩

/-- C10: whenever a dispatched GetDisplayInfo (selector 2) or
GetFramebuffer (selector 3) call returns a non-success code, the
caller-visible arguments — scalar-output array and structured-output
slot — are returned unchanged. -/
theorem C10_no_output_on_failure (s : Nat) (conn : ConnState) (a : MethodArguments)
    (hs : s = 2 ∨ s = 3) (hne : (externalMethod s a conn).1 ≠ .success) :
    (externalMethod s a conn).2.2 = a := by
  rcases hs with rfl | rfl
  · rw [externalMethod_sel2] at hne ⊢
    by_cases hcheck : checkArguments getDisplayInfoEntry a = true
    · rw [dispatch_entry_run getDisplayInfoEntry conn a hcheck] at hne ⊢
      show (externalMethodGetDisplayInfo conn a).2.2 = a
      have hne' : (externalMethodGetDisplayInfo conn a).1 ≠ .success := hne
      cases hd : conn.driver with
      | none => rw [handler2_noService conn a hd]
      | some drv =>
          exfalso
          apply hne'
          unfold externalMethodGetDisplayInfo
          rw [hd]
          simp [getDisplayInfo_fst]
    · have hc : checkArguments getDisplayInfoEntry a = false :=
        Bool.not_eq_true _ ▸ Bool.of_not_eq_true hcheck
      rw [dispatch_entry_mismatch getDisplayInfoEntry conn a hc]
  · rw [externalMethod_sel3] at hne ⊢
    by_cases hcheck : checkArguments getFramebufferEntry a = true
    · rw [dispatch_entry_run getFramebufferEntry conn a hcheck] at hne ⊢
      show (externalMethodGetFramebuffer conn a).2.2 = a
      have hne' : (externalMethodGetFramebuffer conn a).1 ≠ .success := hne
      cases hd : conn.driver with
      | none => rw [handler3_noService conn a hd]
      | some drv =>
          by_cases hret : (getFramebuffer drv).1 = .success
          · exfalso
            apply hne'
            unfold externalMethodGetFramebuffer
            rw [hd]
            simp [hret]
          · unfold externalMethodGetFramebuffer
            rw [hd]
            simp [hret]
    · have hc : checkArguments getFramebufferEntry a = false :=
        Bool.not_eq_true _ ▸ Bool.of_not_eq_true hcheck
      rw [dispatch_entry_mismatch getFramebufferEntry conn a hc]

/-- Witness for C10: GetFramebuffer dispatched on an open connection
whose service is disconnected fails (NotConnected) and leaves the
arguments unchanged. -/
theorem C10_no_output_on_failure_witness :
    (externalMethod 3 fbArgs openConn).2.2 = fbArgs :=
  C10_no_output_on_failure 3 openConn fbArgs (Or.inr rfl) (by decide)

end AirCatch
